import Mathlib

/-!
# Verification of `get_system_inventory.py`

A shallow embedding of the Redfish inventory script: JSON values are an
inductive type, the network is a function from request URI to an optional
(status code, body) pair (`none` models a connection-level failure), and
Python exceptions are the error side of `Except`.  Each function of the
script is translated line by line; the theorems at the end of the file
settle the specification's claims about them.
-/

/-- A JSON value as Python's `response.json()` produces it.  Python booleans
are numbers (`True == 1`), which `Json.toNum` below reflects. -/
inductive Json where
  | null
  | bool (b : Bool)
  | str (s : String)
  | int (n : Int)
  | float (q : ℚ)
  | arr (elts : List Json)
  | obj (entries : List (String × Json))

/-- The Python exceptions the script can raise or observe. -/
inductive PyErr where
  | connectionError
  | redfishError (msg : String)
  | keyError (key : String)
  | typeError
  | attributeError
  | zeroDivisionError

/-- First value bound to a key in a JSON object's entry list (Python dict
keys are unique, so first match is the dict lookup). -/
def lookupKey : List (String × Json) → String → Option Json
  | [], _ => none
  | (k, v) :: rest, key => if k = key then some v else lookupKey rest key

/-- `d[k]` on a JSON value: `KeyError` when the key is absent, `TypeError`
when the value is not an object. -/
def Json.getKey (j : Json) (k : String) : Except PyErr Json :=
  match j with
  | .obj es =>
    match lookupKey es k with
    | some v => .ok v
    | none => .error (.keyError k)
  | _ => .error .typeError

/-- `d.get(k, dflt)` on a JSON value: the bound value, else the default;
`AttributeError` when the value is not an object. -/
def pyDictGet (j : Json) (k : String) (dflt : Json) : Except PyErr Json :=
  match j with
  | .obj es => .ok ((lookupKey es k).getD dflt)
  | _ => .error .attributeError

/-- A value used where Python needs a `str` (joins, `in` tests,
concatenation): `TypeError` otherwise. -/
def Json.asStr : Json → Except PyErr String
  | .str s => .ok s
  | _ => .error .typeError

/-- A value iterated as a Python list: `TypeError` otherwise. -/
def Json.asArr : Json → Except PyErr (List Json)
  | .arr xs => .ok xs
  | _ => .error .typeError

/-- Numeric view of a JSON value (Python `int`, `float` and `bool` support
arithmetic). -/
def Json.toNum : Json → Option ℚ
  | .int n => some (n : ℚ)
  | .float q => some q
  | .bool b => some (if b then 1 else 0)
  | _ => none

/-- Python true division `a / b`: a float result, `ZeroDivisionError` on a
zero divisor, `TypeError` on non-numeric operands. -/
def pyDiv (a b : Json) : Except PyErr Json :=
  match a.toNum, b.toNum with
  | some x, some y => if y = 0 then .error .zeroDivisionError else .ok (.float (x / y))
  | _, _ => .error .typeError

/-- Python `round` on an exact rational value: nearest integer, ties to the
even neighbour. -/
def pyRoundQ (q : ℚ) : Int :=
  let f := ⌊q⌋
  if q - f < 1/2 then f
  else if (1:ℚ)/2 < q - f then f + 1
  else if f % 2 = 0 then f else f + 1

/-- Python `round(x)` on a JSON value. -/
def pyRoundJ : Json → Except PyErr Int
  | .int n => .ok n
  | .float q => .ok (pyRoundQ q)
  | .bool b => .ok (if b then 1 else 0)
  | _ => .error .typeError

/-- Python `str(x)`.  The string and integer cases are exact (they are the
only ones any theorem relies on); float, list and dict rendering is
approximated, since no claim depends on their text. -/
def pyStr : Json → String
  | .null => "None"
  | .bool b => if b then "True" else "False"
  | .str s => s
  | .int n => toString n
  | .float q => if q.den = 1 then toString q.num ++ ".0" else toString q.num ++ "/" ++ toString q.den
  | .arr _ => "<list>"
  | .obj _ => "<dict>"

/-- `needle` is a prefix of the character list. -/
def listHasPfx : List Char → List Char → Bool
  | [], _ => true
  | _ :: _, [] => false
  | a :: as, b :: bs => a == b && listHasPfx as bs

/-- `needle` occurs contiguously in the character list. -/
def listHasSub (needle : List Char) : List Char → Bool
  | [] => needle.isEmpty
  | b :: bs => listHasPfx needle (b :: bs) || listHasSub needle bs

/-- Python's substring test `needle in hay`. -/
def strIn (needle hay : String) : Bool := listHasSub needle.toList hay.toList

/-- One pass of Python's `str.replace` over a character list: replace each
left-to-right, non-overlapping occurrence of `pat` by `rep`.  The fuel
argument (the list's length suffices, since every step consumes at least
one character) keeps the recursion structural. -/
def replaceFuel (pat rep : List Char) : Nat → List Char → List Char
  | _, [] => []
  | 0, s => s
  | fuel + 1, c :: rest =>
    if listHasPfx pat (c :: rest) = true then
      rep ++ replaceFuel pat rep fuel (List.drop (pat.length - 1) rest)
    else c :: replaceFuel pat rep fuel rest

/-- Python `s.replace(pat, rep)` for a non-empty pattern (the script only
replaces the non-empty patterns `"{}"` and `"Interfaces"`). -/
def pyReplace (s pat rep : String) : String :=
  if pat.isEmpty then s
  else ⟨replaceFuel pat.toList rep.toList s.toList.length s.toList⟩

/-- The network: each URI answers with a status code and a JSON body, or
`none` for a connection-level failure (`requests.exceptions.ConnectionError`). -/
def Net : Type := String → Option (Nat × Json)

/-- `REDFISH_URI` template of the script. -/
def REDFISH_URI : String := "https://{}/redfish/v1/Systems/System.Embedded.1"

/-- `REDFISH_URI.format(idrac_ip)`. -/
def redfishBase (idrac_ip : String) : String := pyReplace REDFISH_URI "{}" idrac_ip

/-- `_make_request(uri)`: raises `RedfishError` on 401 / 404 / other
non-2xx statuses, returns the parsed JSON body otherwise.  A `none` answer
from the network is the `ConnectionError` that `requests.get` raises. -/
def make_request (net : Net) (uri : String) : Except PyErr Json :=
  match net uri with
  | none => .error .connectionError
  | some (status, body) =>
    if status = 401 then .error (.redfishError ("Incorrect username/password. Given URI: " ++ uri))
    else if status = 404 then .error (.redfishError ("URI not found. Given URI: " ++ uri))
    else if status ≠ 200 ∧ status ≠ 202 then
      .error (.redfishError ("Host may not support Redfish API. Given URI: " ++ uri))
    else .ok body

/-- The `irrelevant_devices` denylist of `get_general_information`. -/
def irrelevant_devices : List String := ["Xeon", "C610/X99", "C600/X79", "G200eR2", "PCI Bridge"]

/-- Line 53 of the script: `data.get("Manufacturer", data.get("Id"))`
(the inner, default-argument lookup runs first). -/
def manufacturerOf (d : Json) : Except PyErr Json := do
  let fallback ← pyDictGet d "Id" Json.null
  pyDictGet d "Manufacturer" fallback

/-- Line 54 of the script: `data.get("Name", data.get("Description"))`. -/
def nameOf (d : Json) : Except PyErr Json := do
  let fallback ← pyDictGet d "Description" Json.null
  pyDictGet d "Name" fallback

/-- The `[item["@odata.id"] for item in members]` pattern (lines 80–81 and
101 of the script): collect each member's reference string in order. -/
def memberIds : List Json → Except PyErr (List String)
  | [] => .ok []
  | item :: rest => do
    let oid ← item.getKey "@odata.id"
    let s ← oid.asStr
    let others ← memberIds rest
    pure (s :: others)

/-- Line 92 of the script: one drive's descriptor,
`str(round(drive_data["CapacityBytes"]/(2**30))) + " " + drive_data["MediaType"]`. -/
def drive_descriptor (drive_data : Json) : Except PyErr String := do
  let cap ← drive_data.getKey "CapacityBytes"
  let gib ← pyDiv cap (Json.int (2 ^ 30))
  let r ← pyRoundJ gib
  let mt ← (← drive_data.getKey "MediaType").asStr
  pure (toString r ++ " " ++ mt)

/-- Lines 89–93: fetch each drive of one controller and append its
descriptor. -/
def collectDrives (net : Net) (idrac_ip : String) : List Json → Except PyErr (List String)
  | [] => .ok []
  | drive :: rest => do
    let oid ← (← drive.getKey "@odata.id").asStr
    let dd ← make_request net ("https://" ++ idrac_ip ++ oid)
    let name ← drive_descriptor dd
    let others ← collectDrives net idrac_ip rest
    pure (name :: others)

/-- Lines 83–93: per-controller loop.  A controller whose `Drives` value is
the empty list contributes nothing (the script only prints a diagnostic
there). -/
def collectControllers (net : Net) (idrac_ip : String) : List String → Except PyErr (List String)
  | [] => .ok []
  | controller :: rest => do
    let data ← make_request net ("https://" ++ idrac_ip ++ controller)
    let drives ← data.getKey "Drives"
    match drives with
    | .arr [] => collectControllers net idrac_ip rest
    | _ => do
      let dl ← drives.asArr
      let names ← collectDrives net idrac_ip dl
      let others ← collectControllers net idrac_ip rest
      pure (names ++ others)

/-- `get_disk_information(idrac_ip)` (lines 73–95). -/
def get_disk_information (net : Net) (idrac_ip : String) : Except PyErr (List String) := do
  let data ← make_request net (redfishBase idrac_ip ++ "/Storage")
  let members ← (← data.getKey "Members").asArr
  let controller_list ← memberIds members
  collectControllers net idrac_ip controller_list

/-- Lines 105–112: per-interface loop of `get_nic_information`.  The member
URI has `"Interfaces"` rewritten to `"Adapters"`; the model falls back to
the `Id` field (the inner, default-argument lookup runs first). -/
def collectNics (net : Net) (idrac_ip : String) : List String → Except PyErr (List Json)
  | [] => .ok []
  | item :: rest => do
    let item2 := pyReplace item "Interfaces" "Adapters"
    let data ← make_request net ("https://" ++ idrac_ip ++ item2)
    let fallback ← pyDictGet data "Id" Json.null
    let model ← pyDictGet data "Model" fallback
    let others ← collectNics net idrac_ip rest
    pure (model :: others)

/-- `get_nic_information(idrac_ip)` (lines 97–114). -/
def get_nic_information (net : Net) (idrac_ip : String) : Except PyErr (List Json) := do
  let data ← make_request net (redfishBase idrac_ip ++ "/NetworkInterfaces")
  let members ← (← data.getKey "Members").asArr
  let network_uri_list ← memberIds members
  collectNics net idrac_ip network_uri_list

/-- Lines 50–60: the PCIe device loop.  Returns (kept device descriptors,
notable NIC descriptors) in iteration order.  A device is kept unless its
name contains a denylisted substring; it is a notable NIC when
`"Solarflare" in manufacturer or "Ethernet" in name`.  As in Python, the
manufacturer must be a string on either path (the join on line 57 or the
containment test on line 59 would raise `TypeError` otherwise). -/
def collectPcie (net : Net) (idrac_ip : String) : List Json → Except PyErr (List String × List String)
  | [] => .ok ([], [])
  | item :: rest => do
    let oid ← (← item.getKey "@odata.id").asStr
    let d ← make_request net ("https://" ++ idrac_ip ++ oid)
    let manufacturer ← manufacturerOf d
    let name ← nameOf d
    let nm ← name.asStr
    let devs ← if irrelevant_devices.any (fun word => strIn word nm) then pure ([] : List String)
      else do
        let m ← manufacturer.asStr
        pure [m ++ " " ++ nm]
    let m2 ← manufacturer.asStr
    let nicContrib := if strIn "Solarflare" m2 || strIn "Ethernet" nm then [m2 ++ " " ++ nm] else []
    let (ds, ns) ← collectPcie net idrac_ip rest
    pure (devs ++ ds, nicContrib ++ ns)

/-- The dictionary `get_general_information` returns (lines 64–70). -/
structure GeneralInfo where
  system_model : Json
  ram : Json
  total_threads : Json
  total_cores : Json
  cpu_model : Json
  other_nics : List String
  all_pcie_devices : String

/-- `get_general_information(idrac_ip)` (lines 33–70), in source order:
model, RAM, thread count, core count (a division that can raise
`ZeroDivisionError`), CPU model, then the PCIe device loop. -/
def get_general_information (net : Net) (idrac_ip : String) : Except PyErr GeneralInfo := do
  let data ← make_request net (redfishBase idrac_ip)
  let system_model ← data.getKey "Model"
  let ram ← (← data.getKey "MemorySummary").getKey "TotalSystemMemoryGiB"
  let total_threads ← (← data.getKey "ProcessorSummary").getKey "LogicalProcessorCount"
  let socketCount ← (← data.getKey "ProcessorSummary").getKey "Count"
  let total_cores ← pyDiv total_threads socketCount
  let cpu_model ← (← data.getKey "ProcessorSummary").getKey "Model"
  let pciedevices ← (← data.getKey "PCIeDevices").asArr
  let devsNics ← collectPcie net idrac_ip pciedevices
  pure { system_model := system_model
         ram := ram
         total_threads := total_threads
         total_cores := total_cores
         cpu_model := cpu_model
         other_nics := devsNics.2
         all_pcie_devices := String.intercalate "+" devsNics.1 }

/-- Each element of a Python list checked to be a `str` (what
`",".join(...)` demands of the NIC models), in list order. -/
def strList : List Json → Except PyErr (List String)
  | [] => .ok []
  | x :: xs => do
    let s ← x.asStr
    let ss ← strList xs
    pure (s :: ss)

/-- Lines 125–137 of `get_all`: everything after the disk join — NIC
collection, general collection, and the comma-joined record.  `join`
requires every item to be a string, so the model and general string fields
pass through `Json.asStr`. -/
def record_after_disks (net : Net) (idrac_ip : String) (disks : String) : Except PyErr String := do
  let nics ← get_nic_information net idrac_ip
  let general ← get_general_information net idrac_ip
  let sm ← general.system_model.asStr
  let cm ← general.cpu_model.asStr
  let nicStrs ← strList nics
  pure (String.intercalate ","
    ([idrac_ip, sm, cm, pyStr general.total_cores, pyStr general.total_threads,
      pyStr general.ram, disks, general.all_pcie_devices] ++ nicStrs ++ general.other_nics))

/-- The `try` body of `get_all` (lines 122–137): disk descriptors joined
with `" + "`, then the rest of the record. -/
def get_all_body (net : Net) (idrac_ip : String) : Except PyErr String := do
  let disks ← get_disk_information net idrac_ip
  record_after_disks net idrac_ip (String.intercalate " + " disks)

/-- The exception handlers of `get_all` (lines 138–141): a
`ConnectionError` becomes `"Could not reach host <ip>"`, a `RedfishError`
becomes its own message, and every other exception propagates. -/
def outcome_of_body (idrac_ip : String) : Except PyErr String → Except PyErr String
  | .ok s => .ok s
  | .error .connectionError => .ok ("Could not reach host " ++ idrac_ip)
  | .error (.redfishError msg) => .ok msg
  | .error e => .error e

/-- `get_all(idrac_ip)` (lines 116–143). -/
def get_all (net : Net) (idrac_ip : String) : Except PyErr String :=
  outcome_of_body idrac_ip (get_all_body net idrac_ip)

/-- Modelled from the spec: the parallel dispatch of `__main__` (lines
162–163, `Pool.map(get_all, all_nodes)`), whose pool machinery is library
code.  Each host's outcome is computed independently; `order` is the order
in which the per-host computations complete, and each completion writes its
result into the slot of its host's input index, never anywhere else.  A
slot never written stays `none`. -/
def pool_map {α : Type} (collect : String → α) (hosts : List String) (order : List Nat) :
    List (Option α) :=
  order.foldl (fun acc i => acc.set i (some (collect (hosts.getD i "")))) (List.replicate hosts.length none)

/-- Follows the spec's words for claim C3: a three-level fallback field
accessor — the primary field, else the secondary, else the tertiary, else
`None`. -/
def spec_fallback3 (k1 k2 k3 : String) (es : List (String × Json)) : Json :=
  match lookupKey es k1 with
  | some v => v
  | none =>
    match lookupKey es k2 with
    | some v => v
    | none => (lookupKey es k3).getD Json.null

/-- Follows the spec's words, amended: a two-level fallback field accessor —
the primary field, else the secondary, else `None`. -/
def spec_fallback2 (k1 k2 : String) (es : List (String × Json)) : Json :=
  match lookupKey es k1 with
  | some v => v
  | none => (lookupKey es k2).getD Json.null

/-! ## Helper lemmas -/

lemma pool_map_foldl_getElem {α : Type} (v : Nat → α) (order : List Nat) :
    ∀ (init : List (Option α)) (j : Nat),
      (order.foldl (fun acc i => acc.set i (some (v i))) init)[j]? =
        if j ∈ order ∧ j < init.length then some (some (v j)) else init[j]? := by
  induction order with
  | nil => intro init j; simp
  | cons o rest ih =>
    intro init j
    rw [List.foldl_cons, ih]
    by_cases ho : o = j
    · subst ho
      by_cases hlen : o < init.length
      · by_cases hmem : o ∈ rest <;>
          simp [List.length_set, hlen, hmem, List.getElem?_set_self hlen]
      · by_cases hmem : o ∈ rest <;>
          simp [List.length_set, hlen, hmem, List.getElem?_set, List.getElem?_eq_none (le_of_not_lt hlen)]
    · have hset : (init.set o (some (v o)))[j]? = init[j]? := List.getElem?_set_ne ho
      by_cases hmem : j ∈ rest
      · simp [List.length_set, hmem, hset, Ne.symm ho]
      · simp [List.length_set, hmem, hset, Ne.symm ho]

lemma manufacturerOf_single (k s : String) :
    manufacturerOf (Json.obj [(k, Json.str s)]) =
      .ok (if k = "Manufacturer" then Json.str s else if k = "Id" then Json.str s else Json.null) := by
  by_cases hM : k = "Manufacturer"
  · subst hM; simp [manufacturerOf, pyDictGet, lookupKey, Bind.bind, Except.bind]
  · by_cases hI : k = "Id"
    · subst hI; simp [manufacturerOf, pyDictGet, lookupKey, Bind.bind, Except.bind, hM]
    · simp [manufacturerOf, pyDictGet, lookupKey, Bind.bind, Except.bind, hM, hI]

lemma spec_fallback3_single (k1 k2 k3 k s : String) :
    spec_fallback3 k1 k2 k3 [(k, Json.str s)] =
      if k = k1 then Json.str s else if k = k2 then Json.str s
      else if k = k3 then Json.str s else Json.null := by
  by_cases h1 : k = k1
  · subst h1; simp [spec_fallback3, lookupKey]
  · by_cases h2 : k = k2
    · subst h2; simp [spec_fallback3, lookupKey, h1]
    · by_cases h3 : k = k3
      · subst h3; simp [spec_fallback3, lookupKey, h1, h2]
      · simp [spec_fallback3, lookupKey, h1, h2, h3]

/-! ## Claim C1 — the dispatcher is an ordered parallel map -/

/-- A network on which every host is unreachable, used to exercise the
dispatcher at concrete inputs. -/
def c1net : Net := fun _ => none

/-- C1: for every input host list of size N, the parallel dispatch step
produces exactly N outcomes, one per host, in the same order as the input
list, regardless of the order in which the per-host collections complete
(any completion order that runs every host's task gives the same, input-
ordered result, with `get_all` applied exactly once per host). -/
theorem C1_dispatch_ordered (net : Net) (hosts : List String) (order : List Nat)
    (hall : ∀ j, j < hosts.length → j ∈ order) :
    pool_map (get_all net) hosts order = hosts.map (fun h => some (get_all net h)) ∧
    (pool_map (get_all net) hosts order).length = hosts.length := by
  have hmain : pool_map (get_all net) hosts order = hosts.map (fun h => some (get_all net h)) := by
    apply List.ext_getElem?
    intro j
    unfold pool_map
    rw [pool_map_foldl_getElem (fun i => get_all net (hosts.getD i ""))]
    rw [List.length_replicate, List.getElem?_replicate, List.getElem?_map]
    by_cases hj : j < hosts.length
    · have hmem := hall j hj
      rw [List.getElem?_eq_getElem hj]
      simp [hmem, hj, List.getD_eq_getElem?_getD, List.getElem?_eq_getElem hj]
    · have : hosts[j]? = none := List.getElem?_eq_none (le_of_not_lt hj)
      simp [hj, this]
  exact ⟨hmain, by rw [hmain, List.length_map]⟩

/-- Witness for C1: three hosts dispatched with completion order 2, 0, 1
still yield the three outcomes in input order. -/
theorem C1_dispatch_ordered_witness :
    pool_map (get_all c1net) ["10.0.3.1", "10.0.3.2", "10.0.3.3"] [2, 0, 1] =
      [some (Except.ok "Could not reach host 10.0.3.1"),
       some (Except.ok "Could not reach host 10.0.3.2"),
       some (Except.ok "Could not reach host 10.0.3.3")] :=
  ((C1_dispatch_ordered c1net ["10.0.3.1", "10.0.3.2", "10.0.3.3"] [2, 0, 1]
      (by decide)).1).trans (by rfl)

/-! ## Claim C3 — the field fallback is two-level, not three-level -/

/-- C3 counterexample: there is NO triple of distinct candidate fields
tried in fixed order that matches the script's manufacturer / name
extraction — lines 53–54 consult exactly two fields each
(`Manufacturer`/`Id` and `Name`/`Description`), so no third candidate field
exists. -/
theorem C3_counterexample :
    ¬ ((∃ k1 k2 k3 : String, k1 ≠ k2 ∧ k1 ≠ k3 ∧ k2 ≠ k3 ∧
          ∀ es : List (String × Json),
            manufacturerOf (Json.obj es) = .ok (spec_fallback3 k1 k2 k3 es)) ∧
       (∃ k1 k2 k3 : String, k1 ≠ k2 ∧ k1 ≠ k3 ∧ k2 ≠ k3 ∧
          ∀ es : List (String × Json),
            nameOf (Json.obj es) = .ok (spec_fallback3 k1 k2 k3 es))) := by
  rintro ⟨⟨k1, k2, k3, h12, h13, h23, hall⟩, -⟩
  by_cases hA : k3 = "Manufacturer"
  · subst hA
    by_cases hB : k1 = "Id"
    · subst hB
      have h := hall [(k2, Json.str "b")]
      rw [manufacturerOf_single, spec_fallback3_single] at h
      simp [Ne.symm h12, h23] at h
    · have h := hall [(k1, Json.str "a")]
      rw [manufacturerOf_single, spec_fallback3_single] at h
      simp [hB, h13] at h
  · by_cases hC : k3 = "Id"
    · subst hC
      by_cases hD : k1 = "Manufacturer"
      · subst hD
        have h := hall [(k2, Json.str "b")]
        rw [manufacturerOf_single, spec_fallback3_single] at h
        simp [Ne.symm h12, h23] at h
      · have h := hall [(k1, Json.str "a")]
        rw [manufacturerOf_single, spec_fallback3_single] at h
        simp [hD, h13] at h
    · have h := hall [(k3, Json.str "t")]
      rw [manufacturerOf_single, spec_fallback3_single] at h
      simp [hA, hC, Ne.symm h13, Ne.symm h23] at h

/-- C3 amended: for every PCIe device resource, the manufacturer and name
extraction follows a TWO-level fallback — a primary field
(`Manufacturer` resp. `Name`), else a secondary field (`Id` resp.
`Description`), else `None` — exactly the accessor `spec_fallback2`. -/
theorem C3_amended_two_level_fallback (es : List (String × Json)) :
    manufacturerOf (Json.obj es) = .ok (spec_fallback2 "Manufacturer" "Id" es) ∧
    nameOf (Json.obj es) = .ok (spec_fallback2 "Name" "Description" es) := by
  constructor
  · cases h1 : lookupKey es "Manufacturer" <;> cases h2 : lookupKey es "Id" <;>
      simp [manufacturerOf, pyDictGet, spec_fallback2, Bind.bind, Except.bind, h1, h2]
  · cases h1 : lookupKey es "Name" <;> cases h2 : lookupKey es "Description" <;>
      simp [nameOf, pyDictGet, spec_fallback2, Bind.bind, Except.bind, h1, h2]

/-! ## Substring facts used for the outcome-text claims -/

lemma listHasPfx_append (xs ys : List Char) : listHasPfx xs (xs ++ ys) = true := by
  induction xs with
  | nil => rfl
  | cons a as ih => simp [listHasPfx, ih]

lemma listHasSub_of_pfx (n h : List Char) (hp : listHasPfx n h = true) :
    listHasSub n h = true := by
  cases h with
  | nil => cases n with
    | nil => rfl
    | cons a as => simp [listHasPfx] at hp
  | cons b bs => simp [listHasSub, hp]

lemma listHasSub_cons (n : List Char) (c : Char) (h : List Char)
    (hs : listHasSub n h = true) : listHasSub n (c :: h) = true := by
  simp [listHasSub, hs]

lemma listHasSub_append_left (pre n h : List Char) (hs : listHasSub n h = true) :
    listHasSub n (pre ++ h) = true := by
  induction pre with
  | nil => exact hs
  | cons c cs ih => exact listHasSub_cons _ _ _ ih

lemma strIn_self_append (s t : String) : strIn s (s ++ t) = true := by
  have htl : (s ++ t).toList = s.toList ++ t.toList := rfl
  unfold strIn
  rw [htl]
  exact listHasSub_of_pfx _ _ (listHasPfx_append _ _)

lemma strIn_append_self (s t : String) : strIn t (s ++ t) = true := by
  have htl : (s ++ t).toList = s.toList ++ t.toList := rfl
  have hrefl : listHasSub t.toList t.toList = true := by
    have := listHasPfx_append t.toList []
    rw [List.append_nil] at this
    exact listHasSub_of_pfx _ _ this
  unfold strIn
  rw [htl]
  exact listHasSub_append_left _ _ _ hrefl

/-! ## Claim C5 — HTTP 401 becomes the single auth-failure outcome -/

/-- A network that answers every request with HTTP 401. -/
def c5net : Net := fun _ => some (401, Json.null)

/-- C5: any request answered with status 401 raises the auth failure naming
that request's URI, and a host whose first request (the storage resource)
gets a 401 yields exactly one outcome: the failure text carrying
"Incorrect username/password" and the offending URI.  Nothing about the
rest of the network is assumed, so collection stopped at the first 401. -/
theorem C5_auth_failure_single_outcome (net : Net) (idrac_ip : String) (body401 : Json)
    (h : net (redfishBase idrac_ip ++ "/Storage") = some (401, body401)) :
    get_all net idrac_ip =
      .ok ("Incorrect username/password. Given URI: " ++ (redfishBase idrac_ip ++ "/Storage")) ∧
    strIn "Incorrect username/password"
      ("Incorrect username/password. Given URI: " ++ (redfishBase idrac_ip ++ "/Storage")) = true ∧
    strIn (redfishBase idrac_ip ++ "/Storage")
      ("Incorrect username/password. Given URI: " ++ (redfishBase idrac_ip ++ "/Storage")) = true ∧
    (∀ uri j, net uri = some (401, j) →
      make_request net uri = .error (.redfishError ("Incorrect username/password. Given URI: " ++ uri))) := by
  have hmr : make_request net (redfishBase idrac_ip ++ "/Storage") =
      .error (.redfishError ("Incorrect username/password. Given URI: " ++ (redfishBase idrac_ip ++ "/Storage"))) := by
    unfold make_request
    rw [h]
    rfl
  have hdisk : get_disk_information net idrac_ip =
      .error (.redfishError ("Incorrect username/password. Given URI: " ++ (redfishBase idrac_ip ++ "/Storage"))) := by
    unfold get_disk_information
    rw [hmr]
    rfl
  have hbody : get_all_body net idrac_ip =
      .error (.redfishError ("Incorrect username/password. Given URI: " ++ (redfishBase idrac_ip ++ "/Storage"))) := by
    unfold get_all_body
    rw [hdisk]
    rfl
  refine ⟨?_, ?_, strIn_append_self _ _, ?_⟩
  · unfold get_all
    rw [hbody]
    rfl
  · have hsplit : ("Incorrect username/password. Given URI: " ++ (redfishBase idrac_ip ++ "/Storage")) =
        "Incorrect username/password" ++ (". Given URI: " ++ (redfishBase idrac_ip ++ "/Storage")) := by
      rw [show ("Incorrect username/password. Given URI: " : String) =
        "Incorrect username/password" ++ ". Given URI: " from rfl, String.append_assoc]
    rw [hsplit]
    exact strIn_self_append _ _
  · intro uri j huri
    unfold make_request
    rw [huri]
    rfl

/-- Witness for C5: a host whose every response is 401 yields the single
auth-failure outcome naming the first requested URI. -/
theorem C5_auth_failure_witness :
    get_all c5net "10.0.7.7" =
      .ok ("Incorrect username/password. Given URI: " ++ (redfishBase "10.0.7.7" ++ "/Storage")) ∧
    strIn "Incorrect username/password"
      ("Incorrect username/password. Given URI: " ++ (redfishBase "10.0.7.7" ++ "/Storage")) = true ∧
    strIn (redfishBase "10.0.7.7" ++ "/Storage")
      ("Incorrect username/password. Given URI: " ++ (redfishBase "10.0.7.7" ++ "/Storage")) = true ∧
    (∀ uri j, c5net uri = some (401, j) →
      make_request c5net uri = .error (.redfishError ("Incorrect username/password. Given URI: " ++ uri))) :=
  C5_auth_failure_single_outcome c5net "10.0.7.7" Json.null rfl

/-! ## Claim C6 — connection failure yields exactly the unreachable-host text -/

/-- A network on which every request fails at the connection level. -/
def c6net : Net := fun _ => none

/-- C6: whenever a host's collection raises a network-level connection
failure, `get_all` returns exactly the text `"Could not reach host <ip>"`
— nothing else is appended, so no partial inventory field appears. -/
theorem C6_unreachable_exact_text (net : Net) (idrac_ip : String)
    (h : get_all_body net idrac_ip = .error .connectionError) :
    get_all net idrac_ip = .ok ("Could not reach host " ++ idrac_ip) := by
  unfold get_all
  rw [h]
  rfl

/-- Witness for C6: an unreachable host produces the exact template text. -/
theorem C6_unreachable_witness :
    get_all c6net "10.0.5.9" = .ok "Could not reach host 10.0.5.9" :=
  C6_unreachable_exact_text c6net "10.0.5.9" rfl

/-! ## Claim C4 — which exceptions the top-level handlers of `get_all` catch -/

/-- A network that answers every request with HTTP 401, so the per-host body
raises `RedfishError` — an exception that is NOT a connection error. -/
def c4net : Net := fun _ => some (401, Json.null)

/-- C4 counterexample: it is false that a connection error is the only
exception `get_all` converts into a descriptive-string outcome — on
`c4net` the body fails with a `RedfishError` (not a connection error) and
`get_all` still converts it into a plain string outcome. -/
theorem C4_counterexample :
    ¬ (∀ (net : Net) (idrac_ip : String) (e : PyErr),
        get_all_body net idrac_ip = .error e → e ≠ PyErr.connectionError →
        get_all net idrac_ip = .error e) := by
  intro hclaim
  have hbody : get_all_body c4net "10.0.0.4" =
      .error (.redfishError
        "Incorrect username/password. Given URI: https://10.0.0.4/redfish/v1/Systems/System.Embedded.1/Storage") := rfl
  have hres := hclaim c4net "10.0.0.4" _ hbody (fun hx => PyErr.noConfusion hx)
  have hok : get_all c4net "10.0.0.4" =
      .ok "Incorrect username/password. Given URI: https://10.0.0.4/redfish/v1/Systems/System.Embedded.1/Storage" := rfl
  rw [hres] at hok
  exact Except.noConfusion hok

/-- C4 amended: connection errors AND `RedfishError`s are the two
conditions caught at the top level of `get_all`; every other exception
raised during a host's collection propagates out of `get_all` unconverted. -/
theorem C4_amended_unhandled_propagates (net : Net) (idrac_ip : String) (e : PyErr)
    (hbody : get_all_body net idrac_ip = .error e)
    (hconn : e ≠ PyErr.connectionError)
    (hred : ∀ s, e ≠ PyErr.redfishError s) :
    get_all net idrac_ip = .error e := by
  unfold get_all
  rw [hbody]
  cases e with
  | connectionError => exact absurd rfl hconn
  | redfishError s => exact absurd rfl (hred s)
  | keyError k => rfl
  | typeError => rfl
  | attributeError => rfl
  | zeroDivisionError => rfl

/-- A network whose storage response is an object with no `Members` key:
the body raises `KeyError`, which no handler of `get_all` catches. -/
def c4wnet : Net := fun _ => some (200, Json.obj [])

/-- Witness for the amended C4: a `KeyError` escapes `get_all`. -/
theorem C4_amended_witness :
    get_all c4wnet "10.0.0.9" = .error (PyErr.keyError "Members") :=
  C4_amended_unhandled_propagates c4wnet "10.0.0.9" (PyErr.keyError "Members") rfl
    (fun hx => PyErr.noConfusion hx) (fun _ hx => PyErr.noConfusion hx)

/-! ## Claim C7 — empty drive lists are a normal, empty contribution -/

/-- A storage collection resource whose members reference the given
controllers. -/
def storageJson (cs : List String) : Json :=
  Json.obj [("Members", Json.arr (cs.map fun c => Json.obj [("@odata.id", Json.str c)]))]

lemma memberIds_of_refs (cs : List String) :
    memberIds (cs.map fun c => Json.obj [("@odata.id", Json.str c)]) = .ok cs := by
  induction cs with
  | nil => rfl
  | cons c rest ih =>
    simp [memberIds, Json.getKey, lookupKey, Json.asStr, ih, Bind.bind, Except.bind,
      pure, Except.pure]

lemma collectControllers_all_empty (net : Net) (idrac_ip : String) (cs : List String)
    (h : ∀ c ∈ cs, net ("https://" ++ idrac_ip ++ c) =
      some (200, Json.obj [("Drives", Json.arr [])])) :
    collectControllers net idrac_ip cs = .ok [] := by
  induction cs with
  | nil => rfl
  | cons c rest ih =>
    have hmr : make_request net ("https://" ++ idrac_ip ++ c) =
        .ok (Json.obj [("Drives", Json.arr [])]) := by
      unfold make_request
      rw [h c (by simp)]
      rfl
    have hrest := ih (fun c' hc' => h c' (by simp [hc']))
    simp [collectControllers, hmr, Json.getKey, lookupKey, Bind.bind, Except.bind, hrest]

/-- C7: when every storage controller of a host reports an empty drive
list, `get_disk_information` succeeds with the empty list (not an error),
the joined disk-descriptor contribution is the empty string, and the
per-host body is exactly the continuation that goes on to NIC and PCIe
gathering with that empty contribution. -/
theorem C7_empty_drives_continue (net : Net) (idrac_ip : String) (cs : List String)
    (hstorage : net (redfishBase idrac_ip ++ "/Storage") = some (200, storageJson cs))
    (hempty : ∀ c ∈ cs, net ("https://" ++ idrac_ip ++ c) =
      some (200, Json.obj [("Drives", Json.arr [])])) :
    get_disk_information net idrac_ip = .ok [] ∧
    String.intercalate " + " ([] : List String) = "" ∧
    get_all_body net idrac_ip = record_after_disks net idrac_ip "" := by
  have hmr : make_request net (redfishBase idrac_ip ++ "/Storage") = .ok (storageJson cs) := by
    unfold make_request
    rw [hstorage]
    rfl
  have hdisk : get_disk_information net idrac_ip = .ok [] := by
    unfold get_disk_information
    rw [hmr]
    simp [storageJson, Json.getKey, lookupKey, Json.asArr, Bind.bind, Except.bind,
      memberIds_of_refs, collectControllers_all_empty net idrac_ip cs hempty]
  refine ⟨hdisk, rfl, ?_⟩
  unfold get_all_body
  rw [hdisk]
  rfl

/-- A host with one storage controller that has no drives; NIC and PCIe
resources are present and empty. -/
def c7net : Net := fun uri =>
  if uri = "https://10.0.6.6/redfish/v1/Systems/System.Embedded.1/Storage" then
    some (200, storageJson ["/redfish/v1/Systems/System.Embedded.1/Storage/RAID.1"])
  else if uri = "https://10.0.6.6/redfish/v1/Systems/System.Embedded.1/Storage/RAID.1" then
    some (200, Json.obj [("Drives", Json.arr [])])
  else if uri = "https://10.0.6.6/redfish/v1/Systems/System.Embedded.1/NetworkInterfaces" then
    some (200, Json.obj [("Members", Json.arr [])])
  else if uri = "https://10.0.6.6/redfish/v1/Systems/System.Embedded.1" then
    some (200, Json.obj [("Model", Json.str "PowerEdge R630"),
      ("MemorySummary", Json.obj [("TotalSystemMemoryGiB", Json.int 128)]),
      ("ProcessorSummary", Json.obj [("LogicalProcessorCount", Json.int 8),
        ("Count", Json.int 2), ("Model", Json.str "Intel Xeon E5-2620")]),
      ("PCIeDevices", Json.arr [])])
  else none

/-- Witness for C7: a drive-less controller gives the empty contribution
and the collection continues. -/
theorem C7_empty_drives_witness :
    get_disk_information c7net "10.0.6.6" = .ok [] ∧
    String.intercalate " + " ([] : List String) = "" ∧
    get_all_body c7net "10.0.6.6" = record_after_disks c7net "10.0.6.6" "" :=
  C7_empty_drives_continue c7net "10.0.6.6"
    ["/redfish/v1/Systems/System.Embedded.1/Storage/RAID.1"] rfl
    (by
      intro c hc
      rw [List.mem_singleton] at hc
      subst hc
      rfl)

/-! ## Claim C9 — a zero socket count crashes the host's collection -/

/-- A system-root response whose `ProcessorSummary.Count` is zero. -/
def sysWithZeroSockets (m ramJ : Json) (t : Int) : Json :=
  Json.obj [("Model", m),
    ("MemorySummary", Json.obj [("TotalSystemMemoryGiB", ramJ)]),
    ("ProcessorSummary", Json.obj [("LogicalProcessorCount", Json.int t), ("Count", Json.int 0)])]

/-- C9: when the system root reports `ProcessorSummary.Count = 0`, the
core-count division in `get_general_information` raises
`ZeroDivisionError`; neither handler of `get_all` catches it, so the host
gets no string outcome — the error escapes `get_all` itself. -/
theorem C9_zero_socket_crash (net : Net) (idrac_ip : String) (m ramJ : Json) (t : Int)
    (ds : List String) (nj : List Json)
    (hsys : net (redfishBase idrac_ip) = some (200, sysWithZeroSockets m ramJ t))
    (hdisk : get_disk_information net idrac_ip = .ok ds)
    (hnic : get_nic_information net idrac_ip = .ok nj) :
    get_general_information net idrac_ip = .error PyErr.zeroDivisionError ∧
    get_all net idrac_ip = .error PyErr.zeroDivisionError := by
  have hmr : make_request net (redfishBase idrac_ip) = .ok (sysWithZeroSockets m ramJ t) := by
    unfold make_request
    rw [hsys]
    rfl
  have hgen : get_general_information net idrac_ip = .error PyErr.zeroDivisionError := by
    unfold get_general_information
    rw [hmr]
    simp [sysWithZeroSockets, Json.getKey, lookupKey, pyDiv, Json.toNum, Bind.bind, Except.bind]
  have hbody : get_all_body net idrac_ip = .error PyErr.zeroDivisionError := by
    unfold get_all_body record_after_disks
    rw [hdisk]
    simp [Bind.bind, Except.bind, hnic, hgen]
  exact ⟨hgen, by unfold get_all; rw [hbody]; rfl⟩

/-- A host whose system root reports 56 logical processors on 0 sockets. -/
def c9net : Net := fun uri =>
  if uri = "https://10.0.9.9/redfish/v1/Systems/System.Embedded.1/Storage" then
    some (200, Json.obj [("Members", Json.arr [])])
  else if uri = "https://10.0.9.9/redfish/v1/Systems/System.Embedded.1/NetworkInterfaces" then
    some (200, Json.obj [("Members", Json.arr [])])
  else if uri = "https://10.0.9.9/redfish/v1/Systems/System.Embedded.1" then
    some (200, sysWithZeroSockets (Json.str "PowerEdge R640") (Json.int 192) 56)
  else none

/-- Witness for C9: the zero-socket host's collection dies with an
uncaught `ZeroDivisionError`. -/
theorem C9_zero_socket_witness :
    get_general_information c9net "10.0.9.9" = .error PyErr.zeroDivisionError ∧
    get_all c9net "10.0.9.9" = .error PyErr.zeroDivisionError :=
  C9_zero_socket_crash c9net "10.0.9.9" (Json.str "PowerEdge R640") (Json.int 192) 56 [] []
    rfl rfl rfl

/-! ## Claim C8 — byte capacities become rounded gibibyte descriptors -/

lemma pyDiv_int_pow (n : Int) :
    pyDiv (Json.int n) (Json.int (2 ^ 30)) = .ok (.float ((n : ℚ) / 2 ^ 30)) := by
  have h2 : (((2 ^ 30 : ℤ)) : ℚ) = (2 : ℚ) ^ 30 := by push_cast; ring
  simp only [pyDiv, Json.toNum, h2]
  rw [if_neg (by positivity)]

lemma drive_descriptor_int (n : Int) (mt : String) :
    drive_descriptor (Json.obj [("CapacityBytes", Json.int n), ("MediaType", Json.str mt)]) =
      .ok (toString (pyRoundQ ((n : ℚ) / 2 ^ 30)) ++ " " ++ mt) := by
  have h1 : Json.getKey (Json.obj [("CapacityBytes", Json.int n), ("MediaType", Json.str mt)])
      "CapacityBytes" = .ok (Json.int n) := rfl
  have h2 : Json.getKey (Json.obj [("CapacityBytes", Json.int n), ("MediaType", Json.str mt)])
      "MediaType" = .ok (Json.str mt) := rfl
  unfold drive_descriptor
  simp only [h1, h2, pyDiv_int_pow, pyRoundJ, Json.asStr, Bind.bind, Except.bind,
    pure, Except.pure]

/-- A 1 GiB SSD drive resource. -/
def c8dd1 : Json := Json.obj [("CapacityBytes", Json.int (2 ^ 30)), ("MediaType", Json.str "SSD")]

/-- A 3 GiB SSD drive resource. -/
def c8dd2 : Json :=
  Json.obj [("CapacityBytes", Json.int (3 * 2 ^ 30)), ("MediaType", Json.str "SSD")]

/-- A host with one storage controller holding the two SSD drives above. -/
def c8net : Net := fun uri =>
  if uri = "https://10.0.8.8/redfish/v1/Systems/System.Embedded.1/Storage" then
    some (200, storageJson ["/stor/C.1"])
  else if uri = "https://10.0.8.8/stor/C.1" then
    some (200, Json.obj [("Drives", Json.arr
      [Json.obj [("@odata.id", Json.str "/drv/1")], Json.obj [("@odata.id", Json.str "/drv/2")]])])
  else if uri = "https://10.0.8.8/drv/1" then some (200, c8dd1)
  else if uri = "https://10.0.8.8/drv/2" then some (200, c8dd2)
  else none

lemma drive_descriptor_c8dd1 : drive_descriptor c8dd1 = .ok "1 SSD" := by
  have e : c8dd1 =
      Json.obj [("CapacityBytes", Json.int (2 ^ 30)), ("MediaType", Json.str "SSD")] := rfl
  have hcast : (((2 ^ 30 : ℤ) : ℚ) / 2 ^ 30) = 1 := by
    push_cast
    exact div_self (by positivity)
  have hround : pyRoundQ 1 = 1 := by
    unfold pyRoundQ
    norm_num
  rw [e, drive_descriptor_int, hcast, hround]
  rfl

lemma drive_descriptor_c8dd2 : drive_descriptor c8dd2 = .ok "3 SSD" := by
  have e : c8dd2 =
      Json.obj [("CapacityBytes", Json.int (3 * 2 ^ 30)), ("MediaType", Json.str "SSD")] := rfl
  have hcast : (((3 * 2 ^ 30 : ℤ) : ℚ) / 2 ^ 30) = 3 := by
    push_cast
    norm_num
  have hround : pyRoundQ 3 = 3 := by
    unfold pyRoundQ
    norm_num
  rw [e, drive_descriptor_int, hcast, hround]
  rfl

/-- C8: a drive's descriptor is its raw byte capacity divided by `2^30`
and rounded (Python `round`) paired with its media type; in particular a
`2^30`-byte SSD yields `"1 SSD"` and a `3·2^30`-byte SSD yields `"3 SSD"`
from `get_disk_information`. -/
theorem C8_capacity_gib_descriptor :
    (∀ (n : Int) (mt : String),
      drive_descriptor (Json.obj [("CapacityBytes", Json.int n), ("MediaType", Json.str mt)]) =
        .ok (toString (pyRoundQ ((n : ℚ) / 2 ^ 30)) ++ " " ++ mt)) ∧
    get_disk_information c8net "10.0.8.8" = .ok ["1 SSD", "3 SSD"] := by
  refine ⟨drive_descriptor_int, ?_⟩
  have hm0 : make_request c8net (redfishBase "10.0.8.8" ++ "/Storage") =
      .ok (storageJson ["/stor/C.1"]) := rfl
  have hm1 : make_request c8net "https://10.0.8.8/stor/C.1" =
      .ok (Json.obj [("Drives", Json.arr
        [Json.obj [("@odata.id", Json.str "/drv/1")], Json.obj [("@odata.id", Json.str "/drv/2")]])]) := rfl
  have hm2 : make_request c8net "https://10.0.8.8/drv/1" = .ok c8dd1 := rfl
  have hm3 : make_request c8net "https://10.0.8.8/drv/2" = .ok c8dd2 := rfl
  unfold get_disk_information
  rw [hm0]
  simp [storageJson, Json.getKey, lookupKey, Json.asArr, Json.asStr, memberIds,
    Bind.bind, Except.bind, pure, Except.pure, collectControllers, collectDrives,
    hm1, hm2, hm3, drive_descriptor_c8dd1, drive_descriptor_c8dd2]

/-! ## Claim C2 — Xeon devices dropped, Solarflare devices kept -/

/-- System root of the C2 scenario host: two PCIe device references. -/
def c2sys : Json :=
  Json.obj [("Model", Json.str "PowerEdge R630"),
    ("MemorySummary", Json.obj [("TotalSystemMemoryGiB", Json.int 256)]),
    ("ProcessorSummary", Json.obj [("LogicalProcessorCount", Json.int 40),
      ("Count", Json.int 2), ("Model", Json.str "Intel Xeon E5-2660 v3")]),
    ("PCIeDevices", Json.arr [Json.obj [("@odata.id", Json.str "/dev/1")],
      Json.obj [("@odata.id", Json.str "/dev/2")]])]

/-- The PCIe device named "Intel Xeon Processor". -/
def c2dev1 : Json := Json.obj [("Manufacturer", Json.str "Intel Corporation"),
  ("Name", Json.str "Intel Xeon Processor")]

/-- The PCIe device named "Solarflare SFN8522", with a parametric
manufacturer field. -/
def c2dev2 (man2 : String) : Json := Json.obj [("Manufacturer", Json.str man2),
  ("Name", Json.str "Solarflare SFN8522")]

/-- The C2 scenario host. -/
def c2net (man2 : String) : Net := fun uri =>
  if uri = "https://10.0.2.2/redfish/v1/Systems/System.Embedded.1" then some (200, c2sys)
  else if uri = "https://10.0.2.2/dev/1" then some (200, c2dev1)
  else if uri = "https://10.0.2.2/dev/2" then some (200, c2dev2 man2)
  else none

/-- What `get_general_information` returns on the C2 scenario host. -/
def c2result (man2 : String) : GeneralInfo :=
  { system_model := Json.str "PowerEdge R630"
    ram := Json.int 256
    total_threads := Json.int 40
    total_cores := Json.float 20
    cpu_model := Json.str "Intel Xeon E5-2660 v3"
    other_nics := if strIn "Solarflare" man2 = true
      then [man2 ++ " " ++ "Solarflare SFN8522"] else []
    all_pcie_devices := String.intercalate "+" [man2 ++ " " ++ "Solarflare SFN8522"] }

lemma c2_collectPcie_eval (man2 : String) :
    collectPcie (c2net man2) "10.0.2.2"
      [Json.obj [("@odata.id", Json.str "/dev/1")], Json.obj [("@odata.id", Json.str "/dev/2")]] =
      .ok ([man2 ++ " " ++ "Solarflare SFN8522"],
        if strIn "Solarflare" man2 = true then [man2 ++ " " ++ "Solarflare SFN8522"] else []) := by
  have hm1 : make_request (c2net man2) "https://10.0.2.2/dev/1" = .ok c2dev1 := rfl
  have hm2 : make_request (c2net man2) "https://10.0.2.2/dev/2" = .ok (c2dev2 man2) := rfl
  have hman1 : manufacturerOf c2dev1 = .ok (Json.str "Intel Corporation") := rfl
  have hname1 : nameOf c2dev1 = .ok (Json.str "Intel Xeon Processor") := rfl
  have hman2 : manufacturerOf (c2dev2 man2) = .ok (Json.str man2) := rfl
  have hname2 : nameOf (c2dev2 man2) = .ok (Json.str "Solarflare SFN8522") := rfl
  have hxeon : (irrelevant_devices.any fun word => strIn word "Intel Xeon Processor") = true := rfl
  have hsolar : (irrelevant_devices.any fun word => strIn word "Solarflare SFN8522") = false := rfl
  have h1 : strIn "Solarflare" "Intel Corporation" = false := rfl
  have h2 : strIn "Ethernet" "Intel Xeon Processor" = false := rfl
  have h3 : strIn "Ethernet" "Solarflare SFN8522" = false := rfl
  simp [collectPcie, Json.getKey, lookupKey, Json.asStr, hm1, hm2, hman1, hname1, hman2,
    hname2, hxeon, hsolar, h1, h2, h3, Bind.bind, Except.bind, pure, Except.pure]

lemma c2_general_eval (man2 : String) :
    get_general_information (c2net man2) "10.0.2.2" = .ok (c2result man2) := by
  have hm0 : make_request (c2net man2) (redfishBase "10.0.2.2") = .ok c2sys := rfl
  have hdiv : pyDiv (Json.int 40) (Json.int 2) = .ok (Json.float 20) := by
    have harith : (((40 : ℤ) : ℚ) / ((2 : ℤ) : ℚ)) = 20 := by norm_num
    simp only [pyDiv, Json.toNum, harith]
    rw [if_neg (by norm_num)]
  unfold get_general_information
  rw [hm0]
  simp [c2sys, Json.getKey, lookupKey, Json.asArr, Bind.bind, Except.bind, pure, Except.pure,
    hdiv, c2_collectPcie_eval, c2result]

/-- C2 counterexample: on a host whose PCIe devices are named
"Intel Xeon Processor" and "Solarflare SFN8522", but where the Solarflare-
named device's `Manufacturer` field is "Broadcom Inc", the Xeon device is
excluded and the Solarflare-named device appears in the PCIe descriptor
string — yet the notable-NIC list is EMPTY, contradicting the claim that a
device named "Solarflare SFN8522" always lands in `other_nics`. -/
theorem C2_counterexample :
    get_general_information (c2net "Broadcom Inc") "10.0.2.2" = .ok (c2result "Broadcom Inc") ∧
    (c2result "Broadcom Inc").all_pcie_devices = "Broadcom Inc Solarflare SFN8522" ∧
    (c2result "Broadcom Inc").other_nics = [] ∧
    ("Broadcom Inc" ++ " " ++ "Solarflare SFN8522") ∉ (c2result "Broadcom Inc").other_nics := by
  refine ⟨c2_general_eval "Broadcom Inc", rfl, rfl, ?_⟩
  rw [show (c2result "Broadcom Inc").other_nics = [] from rfl]
  exact List.not_mem_nil _

/-- C2 amended: on a host whose PCIe devices include one named
"Intel Xeon Processor" and one named "Solarflare SFN8522", the Xeon-named
device is excluded from the joined PCIe descriptor string and the
Solarflare-named device is included in it; the Solarflare-named device
additionally appears in the notable-NIC list exactly when its
`Manufacturer` field contains "Solarflare" (or its name contained
"Ethernet", which "Solarflare SFN8522" does not) — membership is decided
by those fields, not by the device's name alone. -/
theorem C2_amended_notable_nic_by_manufacturer (man2 : String) :
    ∃ g, get_general_information (c2net man2) "10.0.2.2" = .ok g ∧
      g.all_pcie_devices = man2 ++ " " ++ "Solarflare SFN8522" ∧
      g.other_nics = (if strIn "Solarflare" man2 = true
        then [man2 ++ " " ++ "Solarflare SFN8522"] else []) :=
  ⟨c2result man2, c2_general_eval man2, rfl, rfl⟩

/-! ## Claim C10 — the record is 8 fixed fields plus one per NIC entry -/

/-- C10: a successful outcome is the comma-join of 8 fixed fields — host
address, system model, CPU model, core count, thread count, RAM, joined
disk descriptors, joined PCIe descriptor string — followed by one field
per NIC model and one per notable-NIC descriptor, so its field count,
`8 + #nics + #other_nics`, varies with the host's NIC counts. -/
theorem C10_record_field_count (net : Net) (idrac_ip : String) (ds : List String)
    (nj : List Json) (g : GeneralInfo) (sm cm : String) (nstrs : List String)
    (hdisk : get_disk_information net idrac_ip = .ok ds)
    (hnic : get_nic_information net idrac_ip = .ok nj)
    (hgen : get_general_information net idrac_ip = .ok g)
    (hsm : g.system_model = Json.str sm)
    (hcm : g.cpu_model = Json.str cm)
    (hns : strList nj = .ok nstrs) :
    get_all net idrac_ip = .ok (String.intercalate ","
      ([idrac_ip, sm, cm, pyStr g.total_cores, pyStr g.total_threads, pyStr g.ram,
        String.intercalate " + " ds, g.all_pcie_devices] ++ nstrs ++ g.other_nics)) ∧
    ([idrac_ip, sm, cm, pyStr g.total_cores, pyStr g.total_threads, pyStr g.ram,
        String.intercalate " + " ds, g.all_pcie_devices] ++ nstrs ++ g.other_nics).length =
      8 + nstrs.length + g.other_nics.length := by
  have hbody : get_all_body net idrac_ip = .ok (String.intercalate ","
      ([idrac_ip, sm, cm, pyStr g.total_cores, pyStr g.total_threads, pyStr g.ram,
        String.intercalate " + " ds, g.all_pcie_devices] ++ nstrs ++ g.other_nics)) := by
    unfold get_all_body record_after_disks
    rw [hdisk]
    simp [Bind.bind, Except.bind, pure, Except.pure, hnic, hgen, hsm, hcm, hns, Json.asStr]
  constructor
  · unfold get_all
    rw [hbody]
    rfl
  · simp
    omega

/-- System root of the C10 witness host: no PCIe devices. -/
def c10sys : Json :=
  Json.obj [("Model", Json.str "PowerEdge R730"),
    ("MemorySummary", Json.obj [("TotalSystemMemoryGiB", Json.int 256)]),
    ("ProcessorSummary", Json.obj [("LogicalProcessorCount", Json.int 40),
      ("Count", Json.int 2), ("Model", Json.str "Intel Xeon E5-2660 v3")]),
    ("PCIeDevices", Json.arr [])]

/-- The C10 witness host: one NIC adapter, no drives, no PCIe devices. -/
def c10net : Net := fun uri =>
  if uri = "https://10.0.1.1/redfish/v1/Systems/System.Embedded.1/Storage" then
    some (200, Json.obj [("Members", Json.arr [])])
  else if uri = "https://10.0.1.1/redfish/v1/Systems/System.Embedded.1/NetworkInterfaces" then
    some (200, Json.obj [("Members", Json.arr [Json.obj [("@odata.id", Json.str "/na/1")]])])
  else if uri = "https://10.0.1.1/na/1" then
    some (200, Json.obj [("Model", Json.str "Intel X540")])
  else if uri = "https://10.0.1.1/redfish/v1/Systems/System.Embedded.1" then
    some (200, c10sys)
  else none

/-- What `get_general_information` returns on the C10 witness host. -/
def c10g : GeneralInfo :=
  { system_model := Json.str "PowerEdge R730"
    ram := Json.int 256
    total_threads := Json.int 40
    total_cores := Json.float 20
    cpu_model := Json.str "Intel Xeon E5-2660 v3"
    other_nics := []
    all_pcie_devices := "" }

lemma c10_general_eval : get_general_information c10net "10.0.1.1" = .ok c10g := by
  have hm0 : make_request c10net (redfishBase "10.0.1.1") = .ok c10sys := rfl
  have hdiv : pyDiv (Json.int 40) (Json.int 2) = .ok (Json.float 20) := by
    have harith : (((40 : ℤ) : ℚ) / ((2 : ℤ) : ℚ)) = 20 := by norm_num
    simp only [pyDiv, Json.toNum, harith]
    rw [if_neg (by norm_num)]
  have hic : String.intercalate "+" ([] : List String) = "" := rfl
  unfold get_general_information
  rw [hm0]
  simp [c10sys, Json.getKey, lookupKey, Json.asArr, Bind.bind, Except.bind, pure, Except.pure,
    hdiv, collectPcie, c10g, hic]

/-- Witness for C10: a host with one NIC model and no notable NICs yields
a record of `8 + 1 + 0` comma-joined fields. -/
theorem C10_record_field_count_witness :
    get_all c10net "10.0.1.1" = .ok (String.intercalate ","
      (["10.0.1.1", "PowerEdge R730", "Intel Xeon E5-2660 v3", pyStr c10g.total_cores,
        pyStr c10g.total_threads, pyStr c10g.ram, String.intercalate " + " ([] : List String),
        c10g.all_pcie_devices] ++ ["Intel X540"] ++ c10g.other_nics)) ∧
    (["10.0.1.1", "PowerEdge R730", "Intel Xeon E5-2660 v3", pyStr c10g.total_cores,
        pyStr c10g.total_threads, pyStr c10g.ram, String.intercalate " + " ([] : List String),
        c10g.all_pcie_devices] ++ ["Intel X540"] ++ c10g.other_nics).length =
      8 + (["Intel X540"] : List String).length + c10g.other_nics.length :=
  C10_record_field_count c10net "10.0.1.1" [] [Json.str "Intel X540"] c10g "PowerEdge R730"
    "Intel Xeon E5-2660 v3" ["Intel X540"] rfl rfl c10_general_eval rfl rfl rfl
